import Mathlib

/-!
Verification of the pg_vectorize core against its specification.

Each section embeds one part of the Rust source as executable Lean
definitions and proves the corresponding specification claims about it.
The embedding conventions: Rust `Result` becomes `Except String`,
strings are Lean `String` (the validators below are char-level
embeddings of byte-level Rust code; every byte outside ASCII fails both
the byte-level check and the char-level check, so the two agree on all
inputs), database effects become explicit state passing, and every
fallible external call (provider, SQL statement, queue) is an explicit
outcome parameter.
-/

set_option linter.unusedVariables false
set_option maxRecDepth 8192

deriving instance DecidableEq for Except

/-! ## Identifier validation (src/core/src/query.rs, check_input) -/

/-- Character-level counterpart of the byte predicate
`c.is_ascii_alphanumeric() || c == b'_'` used by `check_input`. -/
def validIdentChar (c : Char) : Bool :=
  c.isAlphanum || c == '_'

/-- Embedding of `check_input` from src/core/src/query.rs: accepts the
input when every byte is ASCII alphanumeric or underscore, otherwise
returns the error `Invalid Input: {input}`. -/
def check_input (input : String) : Except String Unit :=
  if input.data.all validIdentChar then Except.ok ()
  else Except.error ("Invalid Input: " ++ input)

/-! ## Filter parsing (src/server/src/routes/search.rs) -/

/-- Filter operators supported by the search API. -/
inductive FilterOperator where
  | Equal
  | GreaterThan
  | GreaterThanOrEqual
  | LessThan
  | LessThanOrEqual
deriving DecidableEq, Repr

/-- Embedding of `FilterOperator::to_sql`. -/
def FilterOperator.to_sql : FilterOperator → String
  | .Equal => "="
  | .GreaterThan => ">"
  | .GreaterThanOrEqual => ">="
  | .LessThan => "<"
  | .LessThanOrEqual => "<="

/-- A filter value with an operator, as in routes/search.rs. -/
structure FilterValue where
  operator : FilterOperator
  value : String
deriving DecidableEq, Repr

/-- Embedding of the custom `Deserialize` visitor for `FilterValue`:
split at the first dot; a known prefix selects the operator and the
remainder is the value, an unknown prefix is an error, and a dotless
string defaults to the equality operator with the whole string as
value. -/
def deserialize_filter_value (s : String) : Except String FilterValue :=
  match s.data.findIdx? (fun c => c == '.') with
  | some dot_pos =>
      let operator_str : String := ⟨s.data.take dot_pos⟩
      let val : String := ⟨s.data.drop (dot_pos + 1)⟩
      if operator_str = "eq" then Except.ok ⟨.Equal, val⟩
      else if operator_str = "gt" then Except.ok ⟨.GreaterThan, val⟩
      else if operator_str = "gte" then Except.ok ⟨.GreaterThanOrEqual, val⟩
      else if operator_str = "lt" then Except.ok ⟨.LessThan, val⟩
      else if operator_str = "lte" then Except.ok ⟨.LessThanOrEqual, val⟩
      else Except.error ("Unknown operator: " ++ operator_str)
  | none => Except.ok ⟨.Equal, s⟩

/-! ## Core data model

The canonical core crate of the repository (the variant with the tokens
sidecar and RRF search, which init.rs, executor.rs and the server routes
compile against) does not ship its types.rs under src; the structures
below are modelled from the spec (section 3) and from how init.rs,
executor.rs and search.rs construct and read them. -/

/-- Modelled from the spec: a structured model identifier
`(source, name)`; the canonical core types.rs is not under src. -/
structure Model where
  source : String
  name : String
deriving DecidableEq, Repr

/-- Modelled from the spec: the catalog row of a job, with the fields
inserted by `initialize_job` and selected by the job cache loaders; the
canonical core types.rs is not under src. -/
structure VectorizeJob where
  job_name : String
  src_schema : String
  src_table : String
  src_column : String
  primary_key : String
  update_time_col : String
  model : Model
deriving DecidableEq, Repr

/-- Modelled from the spec: the queue payload `{job_name, record_ids}`
as constructed in `scan_job` and read by the worker; the canonical core
types.rs is not under src. -/
structure JobMessage where
  job_name : String
  record_ids : List String
deriving DecidableEq, Repr

/-! ## Job manager (src/core/src/init.rs and src/core/src/query.rs) -/

/-- Embedding of `create_embedding_table` from src/core/src/query.rs:
renders the sidecar DDL with the join key of the resolved source type
UNIQUE NOT NULL, a NOT NULL embeddings column of the given vector type,
a defaulted timestamptz updated_at, and an ON DELETE CASCADE foreign key
to the source table. -/
def create_embedding_table (job_name join_key join_key_type col_type
    src_schema src_table : String) : String :=
  "CREATE TABLE IF NOT EXISTS vectorize._embeddings_" ++ job_name
    ++ " (\n            " ++ join_key ++ " " ++ join_key_type
    ++ " UNIQUE NOT NULL,\n            embeddings " ++ col_type
    ++ " NOT NULL,\n            updated_at TIMESTAMP WITH TIME ZONE DEFAULT NOW() NOT NULL,\n            FOREIGN KEY ("
    ++ join_key ++ ") REFERENCES " ++ src_schema ++ "." ++ src_table
    ++ " (" ++ join_key ++ ") ON DELETE CASCADE\n        );\n        "

/-- Schema objects created inside the `initialize_job` transaction, in
statement order. Only the embedding-table DDL text is claim-relevant;
the remaining statements are rendered by query.rs helpers that are not
under src and are tracked as opaque tags. -/
inductive SchemaObject where
  | embeddingTable (ddl : String)
  | searchTokensTable
  | projectView
  | hnswCosineIndex
  | ftsIndex
  | searchTokenTriggers
  | triggerHandler
  | insertTrigger
  | updateTrigger
deriving DecidableEq, Repr

/-- Database state visible to the job manager: the `vectorize.job`
catalog keyed by job_name, the schema objects created so far, the queue
content, and which jobs had their tokens sidecar synchronously filled. -/
structure CatalogState where
  job_rows : List (String × VectorizeJob)
  schema_objects : List SchemaObject
  queued : List JobMessage
  tokens_populated : List String
deriving DecidableEq, Repr

/-- Insert-or-update of the catalog row on `job_name`, the effect of the
`ON CONFLICT (job_name) DO UPDATE` upsert in `initialize_job`. -/
def upsert_job_row (rows : List (String × VectorizeJob)) (name : String)
    (job : VectorizeJob) : List (String × VectorizeJob) :=
  if rows.any (fun kv => kv.1 == name) then
    rows.map (fun kv => if kv.1 == name then (name, job) else kv)
  else
    rows ++ [(name, job)]

/-- Outcomes of every fallible step of `initialize_job`, in program
order: the catalog upsert (returning the job id, a UUID abstracted as a
number), the provider dimension probe, the primary-key type resolution,
each DDL statement executed on the transaction, the commit, the
post-commit `scan_job` (the messages it managed to enqueue and whether
it finished), and the synchronous tokens population. -/
structure InitOracle where
  upsert : Except String Nat
  model_dim : Except String Nat
  pkey_dtype : Except String String
  exec_embedding_table : Bool
  exec_search_tokens_table : Bool
  exec_view : Bool
  exec_hnsw_index : Bool
  exec_fts_index : Bool
  exec_token_triggers : Bool
  exec_trigger_handler : Bool
  exec_insert_trigger : Bool
  exec_update_trigger : Bool
  commit_ok : Bool
  scan_sent : List JobMessage
  scan_ok : Bool
  tokens_populate_ok : Bool
deriving DecidableEq, Repr

/-- Decides whether every step of `initialize_job` up to (excluding) the
commit succeeds. -/
def pre_commit_ok (o : InitOracle) : Bool :=
  o.upsert.isOk && o.model_dim.isOk && o.pkey_dtype.isOk
    && o.exec_embedding_table && o.exec_search_tokens_table && o.exec_view
    && o.exec_hnsw_index && o.exec_fts_index && o.exec_token_triggers
    && o.exec_trigger_handler && o.exec_insert_trigger && o.exec_update_trigger

/-- The schema objects created inside the transaction of one
`initialize_job` call, in statement order, with the embedding-table DDL
rendered exactly as init.rs renders it: the resolved primary-key type
and a `vector(D)` column for the probed model dimension. -/
def init_tx_objects (job_request : VectorizeJob) (model_dim : Nat)
    (pkey_dtype : String) : List SchemaObject :=
  [ .embeddingTable (create_embedding_table job_request.job_name
      job_request.primary_key pkey_dtype
      ("vector(" ++ toString model_dim ++ ")")
      job_request.src_schema job_request.src_table),
    .searchTokensTable, .projectView, .hnswCosineIndex, .ftsIndex,
    .searchTokenTriggers, .triggerHandler, .insertTrigger, .updateTrigger ]

/-- Embedding of `initialize_job` from src/core/src/init.rs: the catalog
upsert, the model-dimension probe, the primary-key type resolution and
all DDL run inside one transaction whose failure at any step returns the
error and leaves the state untouched; after the commit, `scan_job`
enqueues the backfill batches and the tokens sidecar is synchronously
populated, and a failure there no longer changes the committed catalog. -/
def initialize_job (o : InitOracle) (job_request : VectorizeJob)
    (st : CatalogState) : Except String Nat × CatalogState :=
  match o.upsert with
  | .error e => (.error e, st)
  | .ok job_id =>
  match o.model_dim with
  | .error e => (.error e, st)
  | .ok model_dim =>
  match o.pkey_dtype with
  | .error e => (.error e, st)
  | .ok pkey_dtype =>
  if ¬ o.exec_embedding_table then (.error "create embedding table failed", st) else
  if ¬ o.exec_search_tokens_table then (.error "create search tokens table failed", st) else
  if ¬ o.exec_view then (.error "create view failed", st) else
  if ¬ o.exec_hnsw_index then (.error "create hnsw index failed", st) else
  if ¬ o.exec_fts_index then (.error "create fts index failed", st) else
  if ¬ o.exec_token_triggers then (.error "create token triggers failed", st) else
  if ¬ o.exec_trigger_handler then (.error "create trigger handler failed", st) else
  if ¬ o.exec_insert_trigger then (.error "create insert trigger failed", st) else
  if ¬ o.exec_update_trigger then (.error "create update trigger failed", st) else
  if ¬ o.commit_ok then (.error "commit failed", st) else
  let committed : CatalogState :=
    { st with
      job_rows := upsert_job_row st.job_rows job_request.job_name job_request,
      schema_objects := st.schema_objects
        ++ init_tx_objects job_request model_dim pkey_dtype }
  let after_scan : CatalogState :=
    { committed with queued := committed.queued ++ o.scan_sent }
  if ¬ o.scan_ok then (.error "scan_job failed", after_scan) else
  if ¬ o.tokens_populate_ok then (.error "tokens population failed", after_scan) else
  (.ok job_id,
    { after_scan with
      tokens_populated := after_scan.tokens_populated ++ [job_request.job_name] })

/-- Substring containment at the string level. -/
def str_has_sub (s pat : String) : Prop :=
  ∃ p q, s = p ++ (pat ++ q)

/-! ## Worker (src/server/src/executor.rs) -/

/-- A message as returned by the queue read: its id, the read count
maintained by the queue, and the payload. -/
structure QueueMessage where
  msg_id : Int
  read_ct : Int
  message : JobMessage
deriving DecidableEq, Repr

/-- Worker configuration, per the spec (the core worker base module is
not under src). -/
structure WorkerConfig where
  database_url : String
  queue_name : String
  poll_interval : Nat
  max_retries : Int
deriving DecidableEq, Repr

/-- Observable outcome of one `poll_job` call: the returned value,
whether `execute_job` was invoked, and whether the message was archived.
The archive call itself is abstracted as succeeding. -/
structure PollOutcome where
  result : Except String (Option Unit)
  processed : Bool
  archived : Bool
deriving DecidableEq, Repr

/-- Embedding of `poll_job` from src/server/src/executor.rs: a failed
read propagates the error; an empty read returns none; otherwise the
message is executed only when its read count does not exceed the retry
budget, an execution error propagates before the archive call, and in
the remaining cases the message is archived. -/
def poll_job (config : WorkerConfig)
    (read_result : Except String (Option QueueMessage))
    (execute_result : Except String Unit) : PollOutcome :=
  match read_result with
  | .error e => ⟨.error ("failed reading message: " ++ e), false, false⟩
  | .ok none => ⟨.ok none, false, false⟩
  | .ok (some msg) =>
      if msg.read_ct ≤ config.max_retries then
        match execute_result with
        | .error e => ⟨.error e, true, false⟩
        | .ok () => ⟨.ok (some ()), true, true⟩
      else
        ⟨.ok (some ()), false, true⟩

/-! ## Cache-sync listener backoff (src/server/src/app_state.rs) -/

/-- Initial reconnect delay of the listener loop, in seconds. -/
def initial_retry_delay : Nat := 1

/-- Cap on the reconnect delay of the listener loop, in seconds. -/
def max_retry_delay : Nat := 60

/-- Embedding of one turn of the loop in `start_cache_sync_listener`:
a successful listen attempt resets the delay to one second without
sleeping; a failure sleeps the current delay and then doubles it, capped
at sixty seconds. Returns the slept duration, if any, and the next
delay. -/
def listener_step (retry_delay : Nat) (ok : Bool) : Option Nat × Nat :=
  if ok then (none, initial_retry_delay)
  else (some retry_delay, min (retry_delay * 2) max_retry_delay)

/-- Runs the listener loop over a finite prefix of attempt outcomes,
collecting the slept delays and the final delay value. -/
def listener_run : Nat → List Bool → List Nat × Nat
  | d, [] => ([], d)
  | d, ok :: rest =>
      let step := listener_step d ok
      let next := listener_run step.2 rest
      (step.1.toList ++ next.1, next.2)

/-- The reconnect-delay recurrence stated by the claim. -/
def delay_rec : Nat → Nat
  | 0 => initial_retry_delay
  | n + 1 => min (delay_rec n * 2) max_retry_delay

/-! ## Job cache construction (src/server/src/app_state.rs) -/

/-- Embedding of the per-row key extraction in `refresh_job_cache` and
`load_initial_job_cache`: `std::mem::take` moves the job name out as the
map key and leaves the default empty string in the stored value. -/
def take_job_name (item : VectorizeJob) : String × VectorizeJob :=
  (item.job_name, { item with job_name := "" })

/-- Embedding of the map construction shared by `refresh_job_cache` and
`load_initial_job_cache`: one entry per catalog row, keyed by job name,
with the stored value carrying an emptied job_name field. -/
def build_job_map (rows : List VectorizeJob) : List (String × VectorizeJob) :=
  rows.map take_job_name

/-! ## Search route (src/server/src/routes/search.rs) -/

/-- Server error kinds, modelled from the spec (errors.rs is not under
src): invalid input and unknown names reject at the request boundary,
everything else is internal. -/
inductive ServerError where
  | InvalidRequest (msg : String)
  | NotFoundError (msg : String)
  | Internal (msg : String)
deriving DecidableEq, Repr

/-- The search request payload. The floating-point tuning fields
(rrf_k, semantic_wt, fts_wt) are passed through to the query builder
unchanged and play no part in the claims, so they are elided; the
BTreeMap of filters is carried as its ordered entry list. -/
structure SearchRequest where
  job_name : String
  query : String
  window_size : Int
  limit : Int
  filters : List (String × FilterValue)
deriving DecidableEq, Repr

/-- Modelled from the spec: the SQL rendered by `hybrid_search_query` of
the canonical core (not under src). Per the spec, filter columns and
operators are validated and then interpolated while filter values are
bound as parameters, so the rendered text is a function of everything
except the filter values; this record stands for that text. -/
structure HybridQuerySql where
  job_name : String
  src_schema : String
  src_table : String
  primary_key : String
  window_size : Int
  limit : Int
  filter_columns : List (String × FilterOperator)
  num_params : Nat
deriving DecidableEq, Repr

/-- Modelled from the spec: `hybrid_search_query` renders the RRF
statement from the job identifiers, the window and limit, and the filter
columns with their operators; the two leading parameters are the query
embedding and the query text, and each filter value adds one bound
parameter. -/
def hybrid_search_query (job_name src_schema src_table primary_key : String)
    (window_size limit : Int)
    (filters : List (String × FilterValue)) : HybridQuerySql :=
  { job_name := job_name
    src_schema := src_schema
    src_table := src_table
    primary_key := primary_key
    window_size := window_size
    limit := limit
    filter_columns := filters.map (fun kv => (kv.1, kv.2.operator))
    num_params := 2 + filters.length }

/-- Embedding of the filter-validation loop of the search handler: every
key and every filter value must pass `check_input`, and the first
failure aborts. -/
def validate_filters : List (String × FilterValue) → Except String Unit
  | [] => .ok ()
  | (k, v) :: rest =>
      match check_input k with
      | .error e => .error e
      | .ok () =>
          match check_input v.value with
          | .error e => .error e
          | .ok () => validate_filters rest

/-- Observable outcome of one search request: the response, whether the
embedding provider was invoked, the executed statement with the filter
values bound after the two leading parameters (none when no statement
ran), and the job cache after the request. -/
structure SearchOutcome where
  result : Except ServerError Unit
  provider_called : Bool
  executed_sql : Option (HybridQuerySql × List String)
  cache_after : List (String × VectorizeJob)
deriving DecidableEq, Repr

/-- Continuation of the search handler once the job is resolved: call
the provider on the query text, render the hybrid statement, and run it
with the filter values as bound parameters. -/
def search_with_job (payload : SearchRequest) (job : VectorizeJob)
    (cache_after : List (String × VectorizeJob))
    (embed_ok : Bool) (sql_ok : Bool) : SearchOutcome :=
  if ¬ embed_ok then
    ⟨.error (.Internal "embedding request failed"), true, none, cache_after⟩
  else
    let q := hybrid_search_query payload.job_name job.src_schema
      job.src_table job.primary_key payload.window_size payload.limit
      payload.filters
    let binds := payload.filters.map (fun kv => kv.2.value)
    if sql_ok then ⟨.ok (), true, some (q, binds), cache_after⟩
    else ⟨.error (.Internal "query failed"), true, some (q, binds), cache_after⟩

/-- Embedding of the `search` handler from src/server/src/routes/search.rs:
validate the job name and every filter key and value, resolve the job
from the cache with a database fallback that writes the fetched row back
into the cache, then embed the query and execute the hybrid statement.
The database row for the job, the provider call and the statement
execution are oracle parameters. -/
def search (payload : SearchRequest)
    (cache : List (String × VectorizeJob))
    (db_job : Option VectorizeJob)
    (embed_ok : Bool) (sql_ok : Bool) : SearchOutcome :=
  match check_input payload.job_name with
  | .error e => ⟨.error (.InvalidRequest e), false, none, cache⟩
  | .ok () =>
  match validate_filters payload.filters with
  | .error e => ⟨.error (.InvalidRequest e), false, none, cache⟩
  | .ok () =>
  match cache.lookup payload.job_name with
  | some job_info => search_with_job payload job_info cache embed_ok sql_ok
  | none =>
      match db_job with
      | some job =>
          search_with_job payload job ((payload.job_name, job) :: cache)
            embed_ok sql_ok
      | none =>
          ⟨.error (.NotFoundError ("Job not found: " ++ payload.job_name)),
            false, none, cache⟩

/-! ## Job-creation route (src/server/src/routes/table.rs) -/

/-- The POST /table payload (named VectorizeJob in routes/table.rs); the
model field is carried as its textual form. -/
structure TableRequest where
  job_name : String
  table : String
  schema : String
  column : String
  primary_key : String
  update_time_col : String
  model : String
deriving DecidableEq, Repr

/-- Observable outcome of the job-creation handler: the response,
whether the primary-key type lookup was reached, and whether the catalog
insert ran. -/
structure TableOutcome where
  result : Except ServerError Unit
  pkey_lookup_reached : Bool
  job_created : Bool
deriving DecidableEq, Repr

/-- Embedding of the `table` handler from src/server/src/routes/table.rs:
the update-time column type is resolved first and anything other than
timestamp with time zone is rejected as an invalid request; only then
are the primary-key type resolved, the provider probed for the model
dimension, and the catalog row upserted. -/
def table_handler (payload : TableRequest)
    (update_col_type : Except String String)
    (pkey_col_type : Except String String)
    (model_dim : Except String Nat)
    (insert_ok : Bool) : TableOutcome :=
  match update_col_type with
  | .error e => ⟨.error (.NotFoundError e), false, false⟩
  | .ok datatype =>
    if datatype ≠ "timestamp with time zone" then
      ⟨.error (.InvalidRequest ("Column " ++ payload.update_time_col
        ++ " in table " ++ payload.schema ++ "." ++ payload.table
        ++ " must be of type \x27timestamp with time zone\x27")),
        false, false⟩
    else
      match pkey_col_type with
      | .error e => ⟨.error (.NotFoundError e), true, false⟩
      | .ok _pkey_type =>
          match model_dim with
          | .error e => ⟨.error (.Internal e), true, false⟩
          | .ok _dim =>
              if insert_ok then ⟨.ok (), true, true⟩
              else ⟨.error (.Internal "insert failed"), true, false⟩

/-! ## Sample values used by the witnesses -/

/-- Sample model identifier. -/
def sample_model : Model := ⟨"openai", "text-embedding-3-small"⟩

/-- Sample catalog job, following scenario 1 of the spec. -/
def sample_job : VectorizeJob :=
  ⟨"prods", "public", "products", "descr", "id", "updated_at", sample_model⟩

/-- Empty database state. -/
def empty_catalog : CatalogState := ⟨[], [], [], []⟩

/-- All-success outcome oracle for `initialize_job`. -/
def sample_oracle : InitOracle :=
  ⟨.ok 7, .ok 3, .ok "integer", true, true, true, true, true, true, true,
    true, true, true, [⟨"prods", ["1", "2", "3"]⟩], true, true⟩

/-- Oracle failing at the primary-key type resolution. -/
def sample_oracle_pkey_fail : InitOracle :=
  ⟨.ok 7, .ok 3, .error "column NOT FOUND", true, true, true, true, true,
    true, true, true, true, true, [], true, true⟩

/-- Oracle whose post-commit scan fails. -/
def sample_oracle_scan_fail : InitOracle :=
  ⟨.ok 7, .ok 3, .ok "integer", true, true, true, true, true, true, true,
    true, true, true, [], false, true⟩

/-- Sample search request with one filter. -/
def sample_search_request : SearchRequest :=
  ⟨"prods", "writing tool", 50, 2, [("id", ⟨.GreaterThan, "1"⟩)]⟩

/-- Helper: a list with no dot has no index of a dot. -/
theorem findIdx_dot_none (l : List Char) (h : '.' ∉ l) :
    l.findIdx? (fun c => c == '.') = none := by
  rw [List.findIdx?_eq_none_iff]
  intro c hc
  simp only [beq_eq_false_iff_ne]
  intro hceq
  exact h (hceq ▸ hc)

/-- Helper: the first dot of `pre ++ '.' :: val` with dotless `pre`
sits at index `pre.length`. -/
theorem findIdx_dot_append (pre val : List Char) (h : '.' ∉ pre) :
    (pre ++ '.' :: val).findIdx? (fun c => c == '.') = some pre.length := by
  rw [List.findIdx?_append, findIdx_dot_none pre h]
  simp [List.findIdx?_cons]

/-- C1 counterexample: `check_input` accepts the empty string, although
the claim requires the empty string to be rejected; the `all` iteration
over the bytes of the input is vacuously true on no bytes. -/
theorem check_input_accepts_empty : check_input "" = Except.ok () := rfl

/-- C1 (amended): `check_input` succeeds exactly when every character of
the input is ASCII alphanumeric or underscore — in particular the empty
string is accepted — and any input containing another character makes it
return the invalid-input error, so the operation fails before any SQL is
executed. -/
theorem check_input_ok_iff_valid_chars (s : String) :
    (check_input s = Except.ok () ↔ ∀ c ∈ s.data, validIdentChar c = true)
    ∧ ((∃ c ∈ s.data, validIdentChar c = false) →
        check_input s = Except.error ("Invalid Input: " ++ s)) := by
  have hbase : check_input s = Except.ok () ↔ s.data.all validIdentChar = true := by
    unfold check_input
    split
    · next h => simp [h]
    · next h => simp [h]
  refine ⟨by rw [hbase, List.all_eq_true], ?_⟩
  rintro ⟨c, hc, hbad⟩
  have hnot : ¬ s.data.all validIdentChar = true := by
    intro hall
    have := List.all_eq_true.mp hall c hc
    rw [hbad] at this
    exact Bool.noConfusion this
  unfold check_input
  simp [hnot]

/-- Witness for the amended C1 theorem at concrete inputs. -/
theorem check_input_ok_iff_valid_chars_witness :
    check_input "a_1" = Except.ok ()
    ∧ check_input "a-b" = Except.error "Invalid Input: a-b" :=
  ⟨(check_input_ok_iff_valid_chars "a_1").1.mpr (by decide),
   (check_input_ok_iff_valid_chars "a-b").2 ⟨'-', by decide, by decide⟩⟩

/-- C5: parsing a filter string splits at the first dot; a known prefix
among eq, gt, gte, lt, lte selects the operator (rendered by `to_sql` as
=, >, >=, <, <= respectively) with the remainder as value, an unknown
prefix fails with an unknown-operator error, and a dotless string
defaults to the equality operator over the whole string. -/
theorem filter_value_parse_spec (pre val s : String)
    (hpre : '.' ∉ pre.data) (hs : '.' ∉ s.data) :
    (deserialize_filter_value s = Except.ok ⟨.Equal, s⟩)
    ∧ (deserialize_filter_value (pre ++ "." ++ val) =
        if pre = "eq" then Except.ok ⟨.Equal, val⟩
        else if pre = "gt" then Except.ok ⟨.GreaterThan, val⟩
        else if pre = "gte" then Except.ok ⟨.GreaterThanOrEqual, val⟩
        else if pre = "lt" then Except.ok ⟨.LessThan, val⟩
        else if pre = "lte" then Except.ok ⟨.LessThanOrEqual, val⟩
        else Except.error ("Unknown operator: " ++ pre))
    ∧ FilterOperator.Equal.to_sql = "="
    ∧ FilterOperator.GreaterThan.to_sql = ">"
    ∧ FilterOperator.GreaterThanOrEqual.to_sql = ">="
    ∧ FilterOperator.LessThan.to_sql = "<"
    ∧ FilterOperator.LessThanOrEqual.to_sql = "<=" := by
  refine ⟨?_, ?_, rfl, rfl, rfl, rfl, rfl⟩
  · unfold deserialize_filter_value
    rw [findIdx_dot_none s.data hs]
  · unfold deserialize_filter_value
    have hdata : (pre ++ "." ++ val).data = pre.data ++ '.' :: val.data := by
      simp [String.data_append]
    rw [hdata, findIdx_dot_append pre.data val.data hpre]
    have htake : (pre.data ++ '.' :: val.data).take pre.data.length = pre.data :=
      List.take_left _ _
    have hsplit : pre.data ++ '.' :: val.data = (pre.data ++ ['.']) ++ val.data := by
      simp
    have hdrop : (pre.data ++ '.' :: val.data).drop (pre.data.length + 1) = val.data := by
      rw [hsplit]
      have hlen : pre.data.length + 1 = (pre.data ++ ['.']).length := by simp
      rw [hlen, List.drop_left]
    simp only [htake, hdrop]

/-- Witness for the C5 theorem at concrete filter strings. -/
theorem filter_value_parse_spec_witness :
    deserialize_filter_value "pizza" = Except.ok ⟨.Equal, "pizza"⟩
    ∧ deserialize_filter_value ("gt" ++ "." ++ "1")
        = Except.ok ⟨.GreaterThan, "1"⟩ := by
  have h := filter_value_parse_spec "gt" "1" "pizza" (by decide) (by decide)
  refine ⟨h.1, ?_⟩
  rw [h.2.1]
  decide

/-- C3: for every message read from the queue, a read count above the
retry budget skips processing and still archives the message, while a
message within the budget whose processing succeeds is processed and
then archived. -/
theorem poll_job_retry_and_archive (config : WorkerConfig)
    (msg : QueueMessage) (execute_result : Except String Unit) :
    (config.max_retries < msg.read_ct →
      poll_job config (.ok (some msg)) execute_result
        = ⟨.ok (some ()), false, true⟩)
    ∧ (msg.read_ct ≤ config.max_retries → execute_result = .ok () →
      poll_job config (.ok (some msg)) execute_result
        = ⟨.ok (some ()), true, true⟩) := by
  constructor
  · intro h
    simp only [poll_job]
    rw [if_neg (by omega)]
  · intro h hexec
    simp only [poll_job, hexec]
    rw [if_pos h]

/-- Witness for the C3 theorem: a poison message with read count three
against a budget of two is archived unprocessed, and a fresh message is
processed and archived. -/
theorem poll_job_retry_and_archive_witness :
    poll_job ⟨"db", "vectorize_jobs", 5, 2⟩
        (.ok (some ⟨1, 3, ⟨"missing", ["9"]⟩⟩)) (.ok ())
      = ⟨.ok (some ()), false, true⟩
    ∧ poll_job ⟨"db", "vectorize_jobs", 5, 2⟩
        (.ok (some ⟨1, 1, ⟨"prods", ["1"]⟩⟩)) (.ok ())
      = ⟨.ok (some ()), true, true⟩ :=
  ⟨(poll_job_retry_and_archive ⟨"db", "vectorize_jobs", 5, 2⟩
      ⟨1, 3, ⟨"missing", ["9"]⟩⟩ (.ok ())).1 (by decide),
   (poll_job_retry_and_archive ⟨"db", "vectorize_jobs", 5, 2⟩
      ⟨1, 1, ⟨"prods", ["1"]⟩⟩ (.ok ())).2 (by decide) rfl⟩

/-- Helper: a run of consecutive failures starting at delay `delay_rec k`
sleeps `delay_rec k`, `delay_rec (k+1)`, and so on. -/
theorem listener_run_all_fail (n : Nat) : ∀ k,
    (listener_run (delay_rec k) (List.replicate n false)).1
      = (List.range n).map (fun i => delay_rec (k + i)) := by
  induction n with
  | zero => intro k; simp [listener_run]
  | succ n ih =>
    intro k
    rw [List.replicate_succ]
    have hstep : listener_step (delay_rec k) false
        = (some (delay_rec k), delay_rec (k + 1)) := by
      simp [listener_step, delay_rec]
    simp only [listener_run, hstep, Option.toList]
    rw [ih (k + 1), List.range_succ_eq_map]
    simp only [List.map_cons, List.map_map, List.singleton_append]
    refine congrArg₂ _ (by simp) ?_
    apply List.map_congr_left
    intro i _
    simp [Function.comp]
    refine congrArg _ (by omega)

/-- Helper: every delay slept by the listener loop stays within the cap,
provided the starting delay does. -/
theorem listener_run_sleeps_le (outcomes : List Bool) : ∀ d,
    d ≤ max_retry_delay →
    ∀ x ∈ (listener_run d outcomes).1, x ≤ max_retry_delay := by
  induction outcomes with
  | nil => intro d hd x hx; simp [listener_run] at hx
  | cons ok rest ih =>
    intro d hd x hx
    cases ok with
    | true =>
      have hstep : listener_step d true = (none, initial_retry_delay) := rfl
      simp only [listener_run, hstep, Option.toList, List.nil_append] at hx
      exact ih initial_retry_delay
        (by simp [initial_retry_delay, max_retry_delay]) x hx
    | false =>
      have hstep : listener_step d false
          = (some d, min (d * 2) max_retry_delay) := rfl
      simp only [listener_run, hstep, Option.toList, List.cons_append,
        List.nil_append, List.mem_cons] at hx
      rcases hx with h | h
      · omega
      · exact ih _ (Nat.min_le_right _ _) x h

/-- Helper: a successful listen attempt resets the delay to one second
no matter what preceded it. -/
theorem listener_run_reset (outcomes : List Bool) : ∀ d,
    (listener_run d (outcomes ++ [true])).2 = initial_retry_delay := by
  induction outcomes with
  | nil => intro d; simp [listener_run, listener_step]
  | cons ok rest ih =>
    intro d
    simp only [List.cons_append, listener_run]
    exact ih _

/-- C8: the reconnect delay of the cache-sync listener satisfies
d(0) = 1 s and d(n+1) = min(2 d(n), 60 s) across consecutive failures,
resets to one second after a successful listen attempt, and never
exceeds sixty seconds. -/
theorem listener_backoff_spec (n : Nat) (outcomes : List Bool) :
    delay_rec 0 = 1
    ∧ (∀ m, delay_rec (m + 1) = min (2 * delay_rec m) 60)
    ∧ ((listener_run initial_retry_delay (List.replicate n false)).1
        = (List.range n).map delay_rec)
    ∧ ((listener_run initial_retry_delay (outcomes ++ [true])).2 = 1)
    ∧ (∀ x ∈ (listener_run initial_retry_delay outcomes).1, x ≤ 60) := by
  refine ⟨rfl, ?_, ?_, listener_run_reset outcomes initial_retry_delay, ?_⟩
  · intro m
    simp [delay_rec, max_retry_delay, Nat.mul_comm]
  · have h := listener_run_all_fail n 0
    simpa using h
  · exact listener_run_sleeps_le outcomes initial_retry_delay
      (by simp [initial_retry_delay, max_retry_delay])

/-- Witness for the C8 theorem: eight consecutive failures sleep the
doubling-then-capped sequence, and a success resets the delay. -/
theorem listener_backoff_spec_witness :
    (listener_run initial_retry_delay (List.replicate 8 false)).1
      = [1, 2, 4, 8, 16, 32, 60, 60]
    ∧ (listener_run initial_retry_delay ([false, false] ++ [true])).2 = 1 := by
  constructor
  · rw [(listener_backoff_spec 8 [false, false]).2.2.1]
    decide
  · exact (listener_backoff_spec 8 [false, false]).2.2.2.1

/-- C10: the job-creation endpoint resolves the update-time column type
first; a resolved type other than timestamp with time zone is rejected
as an invalid request before the primary-key lookup, and the catalog row
is only ever inserted when the resolved type is exactly timestamp with
time zone. -/
theorem table_requires_timestamptz (payload : TableRequest)
    (u p : Except String String) (md : Except String Nat) (ins : Bool)
    (dt : String) :
    (u = .ok dt → dt ≠ "timestamp with time zone" →
      table_handler payload u p md ins
        = ⟨.error (.InvalidRequest ("Column " ++ payload.update_time_col
            ++ " in table " ++ payload.schema ++ "." ++ payload.table
            ++ " must be of type \x27timestamp with time zone\x27")),
            false, false⟩)
    ∧ ((table_handler payload u p md ins).pkey_lookup_reached = true →
        u = .ok "timestamp with time zone")
    ∧ ((table_handler payload u p md ins).job_created = true →
        u = .ok "timestamp with time zone") := by
  refine ⟨?_, ?_, ?_⟩
  · intro hu hdt
    subst hu
    simp only [table_handler]
    rw [if_pos hdt]
  · cases u with
    | error e => intro hreach; simp [table_handler] at hreach
    | ok dt2 =>
      by_cases hdt2 : dt2 = "timestamp with time zone"
      · subst hdt2
        intro _
        rfl
      · intro hreach
        exfalso
        simp only [table_handler] at hreach
        rw [if_pos hdt2] at hreach
        simp at hreach
  · cases u with
    | error e => intro hc; simp [table_handler] at hc
    | ok dt2 =>
      by_cases hdt2 : dt2 = "timestamp with time zone"
      · subst hdt2
        intro _
        rfl
      · intro hc
        exfalso
        simp only [table_handler] at hc
        rw [if_pos hdt2] at hc
        simp at hc

/-- Witness for the C10 theorem: an integer-typed update-time column is
rejected before the primary-key lookup. -/
theorem table_requires_timestamptz_witness :
    table_handler ⟨"prods", "products", "public", "descr", "id",
        "updated_at", "openai"⟩ (.ok "integer") (.ok "integer") (.ok 3) true
      = ⟨.error (.InvalidRequest ("Column " ++ "updated_at"
          ++ " in table " ++ "public" ++ "." ++ "products"
          ++ " must be of type \x27timestamp with time zone\x27")),
          false, false⟩ :=
  (table_requires_timestamptz ⟨"prods", "products", "public", "descr",
      "id", "updated_at", "openai"⟩ (.ok "integer") (.ok "integer")
      (.ok 3) true "integer").1 rfl (by decide)

/-- Helper: the search continuation never touches the cache it is
given. -/
theorem search_with_job_cache (payload : SearchRequest) (job : VectorizeJob)
    (ca : List (String × VectorizeJob)) (embed_ok sql_ok : Bool) :
    (search_with_job payload job ca embed_ok sql_ok).cache_after = ca := by
  unfold search_with_job
  by_cases he : embed_ok
  · by_cases hs : sql_ok <;> simp [he, hs]
  · simp [he]

/-- Helper: whenever the search continuation executes a statement, the
bound parameters are the filter values and the statement text carries
only the filter columns and operators. -/
theorem search_with_job_executed (payload : SearchRequest)
    (job : VectorizeJob) (ca : List (String × VectorizeJob))
    (embed_ok sql_ok : Bool) (q : HybridQuerySql) (binds : List String)
    (h : (search_with_job payload job ca embed_ok sql_ok).executed_sql
        = some (q, binds)) :
    binds = payload.filters.map (fun kv => kv.2.value)
    ∧ q.filter_columns
        = payload.filters.map (fun kv => (kv.1, kv.2.operator)) := by
  unfold search_with_job at h
  by_cases he : embed_ok
  · by_cases hs : sql_ok
    · simp [he, hs] at h
      obtain ⟨hq, hb⟩ := h
      subst hq hb
      exact ⟨rfl, rfl⟩
    · simp [he, hs] at h
      obtain ⟨hq, hb⟩ := h
      subst hq hb
      exact ⟨rfl, rfl⟩
  · simp [he] at h

/-- C7: the search handler resolves the job from the in-memory cache; a
miss falls back to the vectorize.job catalog and inserts the fetched row
into the cache under the requested job name before answering, so an
immediately following lookup of that name hits the cache; when neither
the cache nor the database knows the job, the request fails with a
not-found error. -/
theorem search_cache_write_through (payload : SearchRequest)
    (cache : List (String × VectorizeJob)) (db_job : Option VectorizeJob)
    (embed_ok sql_ok : Bool) (job : VectorizeJob)
    (hname : check_input payload.job_name = .ok ())
    (hfilters : validate_filters payload.filters = .ok ()) :
    (cache.lookup payload.job_name = some job →
      (search payload cache db_job embed_ok sql_ok).cache_after = cache)
    ∧ (cache.lookup payload.job_name = none → db_job = some job →
      (search payload cache db_job embed_ok sql_ok).cache_after
          = (payload.job_name, job) :: cache
        ∧ (search payload cache db_job embed_ok sql_ok).cache_after.lookup
            payload.job_name = some job)
    ∧ (cache.lookup payload.job_name = none → db_job = none →
      search payload cache db_job embed_ok sql_ok
        = ⟨.error (.NotFoundError ("Job not found: " ++ payload.job_name)),
            false, none, cache⟩) := by
  refine ⟨?_, ?_, ?_⟩
  · intro hhit
    simp only [search, hname, hfilters, hhit]
    exact search_with_job_cache payload job cache embed_ok sql_ok
  · intro hmiss hdb
    subst hdb
    have hca : (search payload cache (some job) embed_ok sql_ok).cache_after
        = (payload.job_name, job) :: cache := by
      simp only [search, hname, hfilters, hmiss]
      exact search_with_job_cache payload job _ embed_ok sql_ok
    refine ⟨hca, ?_⟩
    rw [hca]
    simp [List.lookup]
  · intro hmiss hdb
    subst hdb
    simp only [search, hname, hfilters, hmiss]

/-- Witness for the C7 theorem: a miss followed by a catalog hit
populates the cache, and a miss with no catalog row is a not-found
error. -/
theorem search_cache_write_through_witness :
    (search sample_search_request [] (some sample_job) true true).cache_after
      = [(sample_search_request.job_name, sample_job)]
    ∧ search sample_search_request [] none true true
      = ⟨.error (.NotFoundError ("Job not found: "
          ++ sample_search_request.job_name)), false, none, []⟩ := by
  constructor
  · exact ((search_cache_write_through sample_search_request [] (some sample_job)
      true true sample_job (by decide) (by decide)).2.1 rfl rfl).1
  · exact (search_cache_write_through sample_search_request [] none
      true true sample_job (by decide) (by decide)).2.2 rfl rfl

/-- C4: the hybrid-search handler validates the job name and every
filter key and value before any effect: a validation failure returns the
invalid-input error with the provider never called and no statement
executed; when a statement is executed, the filter values are bound as
parameters after the query embedding and query text while the statement
itself is a function of the filter columns and operators only, never of
the values. -/
theorem search_validates_and_binds (payload : SearchRequest)
    (cache : List (String × VectorizeJob)) (db_job : Option VectorizeJob)
    (embed_ok sql_ok : Bool) (e : String) :
    (check_input payload.job_name = .error e →
      search payload cache db_job embed_ok sql_ok
        = ⟨.error (.InvalidRequest e), false, none, cache⟩)
    ∧ (check_input payload.job_name = .ok () →
       validate_filters payload.filters = .error e →
      search payload cache db_job embed_ok sql_ok
        = ⟨.error (.InvalidRequest e), false, none, cache⟩)
    ∧ (∀ q binds,
        (search payload cache db_job embed_ok sql_ok).executed_sql
          = some (q, binds) →
        binds = payload.filters.map (fun kv => kv.2.value)
        ∧ q.filter_columns
            = payload.filters.map (fun kv => (kv.1, kv.2.operator)))
    ∧ (∀ filters2 : List (String × FilterValue),
        filters2.map (fun kv => (kv.1, kv.2.operator))
          = payload.filters.map (fun kv => (kv.1, kv.2.operator)) →
        ∀ jn ss st2 pk w l,
          hybrid_search_query jn ss st2 pk w l filters2
            = hybrid_search_query jn ss st2 pk w l payload.filters) := by
  refine ⟨?_, ?_, ?_, ?_⟩
  · intro h
    simp only [search, h]
  · intro h1 h2
    simp only [search, h1, h2]
  · intro q binds h
    rcases hci : check_input payload.job_name with e2 | u
    · simp [search, hci] at h
    · cases u
      rcases hvf : validate_filters payload.filters with e2 | u2
      · simp [search, hci, hvf] at h
      · cases u2
        rcases hlk : cache.lookup payload.job_name with _ | job
        · rcases hdb : db_job with _ | job
          · simp [search, hci, hvf, hlk, hdb] at h
          · simp only [search, hci, hvf, hlk, hdb] at h
            exact search_with_job_executed payload job _ embed_ok sql_ok
              q binds h
        · simp only [search, hci, hvf, hlk] at h
          exact search_with_job_executed payload job _ embed_ok sql_ok
            q binds h
  · intro filters2 h jn ss st2 pk w l
    have hlen : filters2.length = payload.filters.length := by
      have := congrArg List.length h
      simpa using this
    simp [hybrid_search_query, h, hlen]

/-- Witness for the C4 theorem: a hyphenated job name is rejected before
any effect, and the executed statement of a valid request binds exactly
the filter values. -/
theorem search_validates_and_binds_witness :
    search ⟨"bad-name", "q", 50, 10, []⟩ [] none true true
      = ⟨.error (.InvalidRequest ("Invalid Input: " ++ "bad-name")),
          false, none, []⟩
    ∧ ["1"] = sample_search_request.filters.map (fun kv => kv.2.value) := by
  constructor
  · exact (search_validates_and_binds ⟨"bad-name", "q", 50, 10, []⟩ [] none
      true true ("Invalid Input: " ++ "bad-name")).1 (by decide)
  · exact ((search_validates_and_binds sample_search_request
      [("prods", sample_job)] none true true "").2.2.1
      (hybrid_search_query "prods" "public" "products" "id" 50 2
        sample_search_request.filters) ["1"] (by decide)).1

/-- Helper: looking a row up in the built cache by its name finds the
row with its name field emptied, given that catalog names are unique. -/
theorem build_job_map_lookup (rows : List VectorizeJob) (r : VectorizeJob) :
    (rows.map VectorizeJob.job_name).Nodup → r ∈ rows →
    (build_job_map rows).lookup r.job_name
      = some { r with job_name := "" } := by
  induction rows with
  | nil => intro _ hr; cases hr
  | cons a rest ih =>
    intro hnodup hr
    rw [List.map_cons] at hnodup
    have hparts := List.nodup_cons.mp hnodup
    rcases List.mem_cons.mp hr with heq | hmem
    · subst heq
      simp [build_job_map, take_job_name, List.lookup]
    · have hne : (r.job_name == a.job_name) = false := by
        rw [beq_eq_false_iff_ne]
        intro hcontra
        exact hparts.1 (hcontra ▸ List.mem_map_of_mem VectorizeJob.job_name hmem)
      simp only [build_job_map, List.map_cons, take_job_name, List.lookup, hne]
      exact ih hparts.2 hmem

/-- Helper: every value stored by the cache builder has an emptied
job_name field. -/
theorem build_job_map_values (rows : List VectorizeJob) :
    ∀ kv ∈ build_job_map rows, kv.2.job_name = "" := by
  intro kv hkv
  simp only [build_job_map, List.mem_map] at hkv
  obtain ⟨r, hrm, hkveq⟩ := hkv
  rw [← hkveq]
  rfl

/-- C9: a listener-driven refresh (and the initial load) builds the
cache with exactly one entry per catalog row, keyed by job name, and
every stored value carries an emptied job_name field; by contrast, the
search handler write-through inserts the fetched row unchanged, so the
one new cache entry keeps its job_name field populated with the
requested name. -/
theorem job_cache_entry_shape (rows : List VectorizeJob) (r : VectorizeJob)
    (payload : SearchRequest) (cache : List (String × VectorizeJob))
    (j : VectorizeJob) (embed_ok sql_ok : Bool)
    (hnodup : (rows.map VectorizeJob.job_name).Nodup) (hr : r ∈ rows)
    (hname : check_input payload.job_name = .ok ())
    (hfilters : validate_filters payload.filters = .ok ())
    (hmiss : cache.lookup payload.job_name = none)
    (hj : j.job_name = payload.job_name) :
    (build_job_map rows).length = rows.length
    ∧ (build_job_map rows).lookup r.job_name
        = some { r with job_name := "" }
    ∧ (∀ kv ∈ build_job_map rows, kv.2.job_name = "")
    ∧ (search payload cache (some j) embed_ok sql_ok).cache_after
        = (payload.job_name, j) :: cache
    ∧ (∀ kv ∈ (search payload cache (some j) embed_ok sql_ok).cache_after,
        kv ∉ cache → kv.2.job_name = payload.job_name) := by
  have hca : (search payload cache (some j) embed_ok sql_ok).cache_after
      = (payload.job_name, j) :: cache := by
    simp only [search, hname, hfilters, hmiss]
    exact search_with_job_cache payload j _ embed_ok sql_ok
  refine ⟨by simp [build_job_map], build_job_map_lookup rows r hnodup hr,
    build_job_map_values rows, hca, ?_⟩
  intro kv hkv hnew
  rw [hca] at hkv
  rcases List.mem_cons.mp hkv with heq | hmem
  · rw [heq]
    exact hj
  · exact absurd hmem hnew

/-- Witness for the C9 theorem: a one-row catalog yields a cache entry
with an emptied name, while the write-through entry keeps its name. -/
theorem job_cache_entry_shape_witness :
    (build_job_map [sample_job]).lookup "prods"
      = some { sample_job with job_name := "" }
    ∧ (search sample_search_request [] (some sample_job) true true).cache_after
      = [("prods", sample_job)] := by
  have h := job_cache_entry_shape [sample_job] sample_job
    sample_search_request [] sample_job true true (by decide) (by decide)
    (by decide) (by decide) rfl (by decide)
  exact ⟨h.2.1, h.2.2.2.1⟩

/-- Helper: any failing step before the commit makes `initialize_job`
return that error with the database state untouched. -/
theorem initialize_job_precommit_fail (o : InitOracle) (req : VectorizeJob)
    (st : CatalogState) :
    pre_commit_ok o = false →
    (initialize_job o req st).2 = st
    ∧ ∃ e, (initialize_job o req st).1 = .error e := by
  obtain ⟨u, md, pk, e1, e2, e3, e4, e5, e6, e7, e8, e9, c, ssent, sok, tok⟩ := o
  intro hfail
  cases u with
  | error e => exact ⟨rfl, e, rfl⟩
  | ok uid =>
  cases md with
  | error e => exact ⟨rfl, e, rfl⟩
  | ok dim =>
  cases pk with
  | error e => exact ⟨rfl, e, rfl⟩
  | ok pkt =>
  cases e1 with
  | false => exact ⟨rfl, _, rfl⟩
  | true =>
  cases e2 with
  | false => exact ⟨rfl, _, rfl⟩
  | true =>
  cases e3 with
  | false => exact ⟨rfl, _, rfl⟩
  | true =>
  cases e4 with
  | false => exact ⟨rfl, _, rfl⟩
  | true =>
  cases e5 with
  | false => exact ⟨rfl, _, rfl⟩
  | true =>
  cases e6 with
  | false => exact ⟨rfl, _, rfl⟩
  | true =>
  cases e7 with
  | false => exact ⟨rfl, _, rfl⟩
  | true =>
  cases e8 with
  | false => exact ⟨rfl, _, rfl⟩
  | true =>
  cases e9 with
  | false => exact ⟨rfl, _, rfl⟩
  | true =>
  exfalso
  simp [pre_commit_ok, Except.isOk, Except.toBool] at hfail

/-- Helper: a failing commit also leaves the database state untouched. -/
theorem initialize_job_commit_fail (o : InitOracle) (req : VectorizeJob)
    (st : CatalogState) :
    o.commit_ok = false → (initialize_job o req st).2 = st := by
  obtain ⟨u, md, pk, e1, e2, e3, e4, e5, e6, e7, e8, e9, c, ssent, sok, tok⟩ := o
  intro hc
  have hc2 : c = false := hc
  subst hc2
  cases u with
  | error e => rfl
  | ok uid =>
  cases md with
  | error e => rfl
  | ok dim =>
  cases pk with
  | error e => rfl
  | ok pkt =>
  cases e1 with
  | false => rfl
  | true =>
  cases e2 with
  | false => rfl
  | true =>
  cases e3 with
  | false => rfl
  | true =>
  cases e4 with
  | false => rfl
  | true =>
  cases e5 with
  | false => rfl
  | true =>
  cases e6 with
  | false => rfl
  | true =>
  cases e7 with
  | false => rfl
  | true =>
  cases e8 with
  | false => rfl
  | true =>
  cases e9 with
  | false => rfl
  | true => rfl

/-- Helper: a successful transaction commits exactly the upserted
catalog row and the schema objects rendered from the probed dimension
and the resolved primary-key type, whatever the post-commit steps do. -/
theorem initialize_job_commit_effects (o : InitOracle) (req : VectorizeJob)
    (st : CatalogState) (dim : Nat) (pkt : String)
    (hpre : pre_commit_ok o = true) (hc : o.commit_ok = true)
    (hmd : o.model_dim = .ok dim) (hpk : o.pkey_dtype = .ok pkt) :
    (initialize_job o req st).2.job_rows
        = upsert_job_row st.job_rows req.job_name req
    ∧ (initialize_job o req st).2.schema_objects
        = st.schema_objects ++ init_tx_objects req dim pkt := by
  obtain ⟨u, md, pk, e1, e2, e3, e4, e5, e6, e7, e8, e9, c, ssent, sok, tok⟩ := o
  have hmd2 : md = .ok dim := hmd
  have hpk2 : pk = .ok pkt := hpk
  have hc2 : c = true := hc
  subst hmd2 hpk2 hc2
  cases u with
  | error e => simp [pre_commit_ok, Except.isOk, Except.toBool] at hpre
  | ok uid =>
    simp only [pre_commit_ok, Except.isOk, Except.toBool,
      Bool.and_eq_true] at hpre
    obtain ⟨⟨⟨⟨⟨⟨⟨⟨⟨⟨⟨_, _⟩, _⟩, he1⟩, he2⟩, he3⟩, he4⟩, he5⟩, he6⟩,
      he7⟩, he8⟩, he9⟩ := hpre
    subst he1 he2 he3 he4 he5 he6 he7 he8 he9
    cases sok <;> cases tok <;> simp [initialize_job]

/-- C2: every failure in `initialize_job` before the commit — catalog
upsert, model-dimension probe, primary-key type resolution, or any of
the DDL statements for the embedding table, search-tokens table, project
view, HNSW index, FTS index or triggers — rolls the whole transaction
back, so neither the catalog row nor any schema object persists and the
error is returned; the backfill scan and the synchronous tokens
population run only once the commit succeeded, and their failure leaves
the committed catalog row and schema objects unchanged. -/
theorem initialize_job_transactional (o : InitOracle) (req : VectorizeJob)
    (st : CatalogState) (dim : Nat) (pkt : String) :
    (pre_commit_ok o = false →
      (initialize_job o req st).2 = st
      ∧ ∃ e, (initialize_job o req st).1 = .error e)
    ∧ (o.commit_ok = false → (initialize_job o req st).2 = st)
    ∧ (pre_commit_ok o = true → o.commit_ok = true →
        o.model_dim = .ok dim → o.pkey_dtype = .ok pkt →
        (initialize_job o req st).2.job_rows
            = upsert_job_row st.job_rows req.job_name req
        ∧ (initialize_job o req st).2.schema_objects
            = st.schema_objects ++ init_tx_objects req dim pkt)
    ∧ ((pre_commit_ok o = false ∨ o.commit_ok = false) →
        (initialize_job o req st).2.queued = st.queued
        ∧ (initialize_job o req st).2.tokens_populated
            = st.tokens_populated) := by
  refine ⟨initialize_job_precommit_fail o req st,
    initialize_job_commit_fail o req st,
    fun hpre hc hmd hpk =>
      initialize_job_commit_effects o req st dim pkt hpre hc hmd hpk, ?_⟩
  rintro (hpre | hc)
  · rw [(initialize_job_precommit_fail o req st hpre).1]
    exact ⟨rfl, rfl⟩
  · rw [initialize_job_commit_fail o req st hc]
    exact ⟨rfl, rfl⟩

/-- Witness for the C2 theorem: a failing primary-key resolution leaves
the empty catalog empty, while a committed job with a failing scan still
has its catalog row. -/
theorem initialize_job_transactional_witness :
    (initialize_job sample_oracle_pkey_fail sample_job empty_catalog).2
      = empty_catalog
    ∧ (initialize_job sample_oracle_scan_fail sample_job
        empty_catalog).2.job_rows
      = upsert_job_row empty_catalog.job_rows sample_job.job_name
          sample_job := by
  constructor
  · exact ((initialize_job_transactional sample_oracle_pkey_fail sample_job
      empty_catalog 3 "integer").1 (by decide)).1
  · exact ((initialize_job_transactional sample_oracle_scan_fail sample_job
      empty_catalog 3 "integer").2.2.1 (by decide) rfl rfl rfl).1

/-- C6: the embedding-sidecar DDL declares the primary-key column with
the resolved source type UNIQUE NOT NULL, the embeddings column NOT
NULL, an updated_at column of timestamp with time zone defaulting to
NOW(), and a foreign key to the source table with ON DELETE CASCADE;
`initialize_job` renders it with the resolved primary-key type and a
vector(D) embeddings type for the provider-probed dimension D and
commits it among the schema objects of the job. -/
theorem embedding_table_ddl_spec (j k kt ct ss tb : String) (o : InitOracle)
    (req : VectorizeJob) (st : CatalogState) (dim : Nat) (pkt : String)
    (hpre : pre_commit_ok o = true) (hc : o.commit_ok = true)
    (hmd : o.model_dim = .ok dim) (hpk : o.pkey_dtype = .ok pkt) :
    str_has_sub (create_embedding_table j k kt ct ss tb)
        (k ++ " " ++ kt ++ " UNIQUE NOT NULL")
    ∧ str_has_sub (create_embedding_table j k kt ct ss tb)
        ("embeddings " ++ ct ++ " NOT NULL")
    ∧ str_has_sub (create_embedding_table j k kt ct ss tb)
        "updated_at TIMESTAMP WITH TIME ZONE DEFAULT NOW() NOT NULL"
    ∧ str_has_sub (create_embedding_table j k kt ct ss tb)
        ("FOREIGN KEY (" ++ k ++ ") REFERENCES " ++ ss ++ "." ++ tb
          ++ " (" ++ k ++ ") ON DELETE CASCADE")
    ∧ SchemaObject.embeddingTable (create_embedding_table req.job_name
        req.primary_key pkt ("vector(" ++ toString dim ++ ")")
        req.src_schema req.src_table)
      ∈ (initialize_job o req st).2.schema_objects := by
  refine ⟨?_, ?_, ?_, ?_, ?_⟩
  · refine ⟨"CREATE TABLE IF NOT EXISTS vectorize._embeddings_" ++ j
      ++ " (\n            ",
      ",\n            embeddings " ++ ct
      ++ " NOT NULL,\n            updated_at TIMESTAMP WITH TIME ZONE DEFAULT NOW() NOT NULL,\n            FOREIGN KEY ("
      ++ k ++ ") REFERENCES " ++ ss ++ "." ++ tb
      ++ " (" ++ k ++ ") ON DELETE CASCADE\n        );\n        ", ?_⟩
    apply String.ext
    simp only [create_embedding_table, String.data_append]
    simp [List.append_assoc, List.cons_append, List.nil_append]
  · refine ⟨"CREATE TABLE IF NOT EXISTS vectorize._embeddings_" ++ j
      ++ " (\n            " ++ k ++ " " ++ kt
      ++ " UNIQUE NOT NULL,\n            ",
      ",\n            updated_at TIMESTAMP WITH TIME ZONE DEFAULT NOW() NOT NULL,\n            FOREIGN KEY ("
      ++ k ++ ") REFERENCES " ++ ss ++ "." ++ tb
      ++ " (" ++ k ++ ") ON DELETE CASCADE\n        );\n        ", ?_⟩
    apply String.ext
    simp only [create_embedding_table, String.data_append]
    simp [List.append_assoc, List.cons_append, List.nil_append]
  · refine ⟨"CREATE TABLE IF NOT EXISTS vectorize._embeddings_" ++ j
      ++ " (\n            " ++ k ++ " " ++ kt
      ++ " UNIQUE NOT NULL,\n            embeddings " ++ ct
      ++ " NOT NULL,\n            ",
      ",\n            FOREIGN KEY ("
      ++ k ++ ") REFERENCES " ++ ss ++ "." ++ tb
      ++ " (" ++ k ++ ") ON DELETE CASCADE\n        );\n        ", ?_⟩
    apply String.ext
    simp only [create_embedding_table, String.data_append]
    simp [List.append_assoc, List.cons_append, List.nil_append]
  · refine ⟨"CREATE TABLE IF NOT EXISTS vectorize._embeddings_" ++ j
      ++ " (\n            " ++ k ++ " " ++ kt
      ++ " UNIQUE NOT NULL,\n            embeddings " ++ ct
      ++ " NOT NULL,\n            updated_at TIMESTAMP WITH TIME ZONE DEFAULT NOW() NOT NULL,\n            ",
      "\n        );\n        ", ?_⟩
    apply String.ext
    simp only [create_embedding_table, String.data_append]
    simp [List.append_assoc, List.cons_append, List.nil_append]
  · have heff :=
      initialize_job_commit_effects o req st dim pkt hpre hc hmd hpk
    rw [heff.2]
    simp [init_tx_objects]

/-- Witness for the C6 theorem at a concrete job: the rendered DDL for
the sample job with a three-dimensional model. -/
theorem embedding_table_ddl_spec_witness :
    str_has_sub (create_embedding_table "prods" "id" "integer" "vector(3)"
        "public" "products") ("id" ++ " " ++ "integer" ++ " UNIQUE NOT NULL")
    ∧ SchemaObject.embeddingTable (create_embedding_table
        sample_job.job_name sample_job.primary_key "integer"
        ("vector(" ++ toString 3 ++ ")") sample_job.src_schema
        sample_job.src_table)
      ∈ (initialize_job sample_oracle sample_job
          empty_catalog).2.schema_objects := by
  have h := embedding_table_ddl_spec "prods" "id" "integer" "vector(3)"
    "public" "products" sample_oracle sample_job empty_catalog 3 "integer"
    (by decide) rfl rfl rfl
  exact ⟨h.1, h.2.2.2.2⟩
